import Mathlib

set_option maxRecDepth 100000

/-!
Shallow embedding of the AI-Essay-Generator client core (the `AIWritingStudio`
component): the tool configuration registry `TOOL_CONFIG`, the submit handler
`handleGenerate` (split into its synchronous validation/issue phase and its
response-resolution phase), the tool-switch handler, and the plain-text export
`handleDownloadTxt`.  JS strings are modelled as `List Char` where character
indexing/trimming matters and as Lean `String` where the text only flows
through verbatim.
-/

/-- The tool identifiers of the `WritingTool` union type. -/
inductive WritingTool where
  | essay
  | report
  | article
  | summary
  | explanation
  | social
deriving DecidableEq, Repr

/-- The `Tone` union type. -/
inductive Tone where
  | academic
  | casual
deriving DecidableEq, Repr

/-- The `LengthKey` union type. -/
inductive LengthKey where
  | short
  | medium
  | long
  | brief
  | standard
  | detailed
  | bullet
  | paragraph
  | simple
  | moderate
  | tweet
  | post
  | thread
deriving DecidableEq, Repr

/-- One entry of a tool's `lengths` array. -/
structure LengthOption where
  value : LengthKey
  label : String
  hint : String
deriving DecidableEq, Repr

/-- One entry of `TOOL_CONFIG` (the React icon node is presentation and omitted). -/
structure ToolConfig where
  label : String
  description : String
  lengths : List LengthOption
deriving DecidableEq, Repr

/-- The `TOOL_CONFIG` registry, transcribed from the source. -/
def TOOL_CONFIG : WritingTool → ToolConfig
  | .essay =>
    { label := "Essay Writer"
      description := "Academic essays with structure and depth."
      lengths :=
        [ ⟨.short, "Short", "300–500 words"⟩
        , ⟨.medium, "Medium", "500–800 words"⟩
        , ⟨.long, "Long", "800–1200 words"⟩ ] }
  | .report =>
    { label := "Report Generator"
      description := "Business / project reports with findings & recommendations."
      lengths :=
        [ ⟨.brief, "Brief", "400–600 words"⟩
        , ⟨.standard, "Standard", "700–1000 words"⟩
        , ⟨.detailed, "Detailed", "1200–1500 words"⟩ ] }
  | .article =>
    { label := "Article Writer"
      description := "Blog posts & articles with hooks and subheadings."
      lengths :=
        [ ⟨.short, "Short", "400–600 words"⟩
        , ⟨.medium, "Medium", "700–1000 words"⟩
        , ⟨.long, "Long", "1200–1500 words"⟩ ] }
  | .summary =>
    { label := "Text Summarizer"
      description := "Condense long text into key takeaways."
      lengths :=
        [ ⟨.bullet, "Bullet", "Key bullet points"⟩
        , ⟨.paragraph, "Paragraph", "2–3 short paragraphs"⟩
        , ⟨.detailed, "Detailed", "Full but concise overview"⟩ ] }
  | .explanation =>
    { label := "Explainer"
      description := "Explain complex topics simply and clearly."
      lengths :=
        [ ⟨.simple, "Simple", "ELI5 style explanation"⟩
        , ⟨.moderate, "Moderate", "Balanced detail"⟩
        , ⟨.detailed, "Detailed", "In-depth walkthrough"⟩ ] }
  | .social =>
    { label := "Social Media"
      description := "Posts for X / Instagram / LinkedIn."
      lengths :=
        [ ⟨.tweet, "Tweet", "Up to 280 characters"⟩
        , ⟨.post, "Post", "Standard social caption"⟩
        , ⟨.thread, "Thread", "Multi-post thread"⟩ ] }

/-- Every tool's `lengths` array is non-empty (needed to take `lengths[0]`). -/
def lengths_nonempty : ∀ t : WritingTool, (TOOL_CONFIG t).lengths ≠ [] := by
  intro t
  cases t <;> decide

/-- The React state of `AIWritingStudio` that the orchestrating logic reads and
writes (`copied` and the DOM ref are presentation-only and omitted). -/
structure StudioState where
  tool : WritingTool
  topic : List Char
  tone : Tone
  lengthKey : LengthKey
  content : String
  wordCount : Nat
  toolUsed : Option WritingTool
  loading : Bool
  error : String
deriving DecidableEq, Repr

/-- The initial state set up by the `useState` initializers. -/
def initialState : StudioState :=
  { tool := .essay
    topic := []
    tone := .academic
    lengthKey := .medium
    content := ""
    wordCount := 0
    toolUsed := none
    loading := false
    error := "" }

/-- Whitespace as recognised by JavaScript `String.prototype.trim`
(whitespace characters and line terminators). -/
def isJsWhitespace (c : Char) : Bool :=
  c = ' ' || c = '\t' || c = '\n' || c = '\r' ||
  c = '\x0b' || c = '\x0c' || c = ' ' || c = ' ' || c = ' '

/-- JavaScript `topic.trim()` on a string modelled as a character list:
strip whitespace from both ends. -/
def jsTrim (l : List Char) : List Char :=
  ((l.dropWhile isJsWhitespace).reverse.dropWhile isJsWhitespace).reverse

/-- The request body assembled by `handleGenerate`:
`JSON.stringify({ tool, topic, length: lengthKey, tone })`.
The topic is sent untrimmed. -/
structure GenerationRequest where
  tool : WritingTool
  topic : List Char
  length : LengthKey
  tone : Tone
deriving DecidableEq, Repr

/-- Outcome of the synchronous part of `handleGenerate` (up to the `fetch`):
either the guard rejected the submission (no network call; the resulting state
is carried), or a request was issued and the component is in the in-flight
state carried alongside it. -/
inductive SubmitStep where
  | rejected (s : StudioState)
  | issued (req : GenerationRequest) (s : StudioState)
deriving DecidableEq, Repr

/-- The validation error message set by the empty-topic guard. -/
def emptyTopicError : String := "Please enter a topic or text to work with."

/-- The synchronous prefix of `handleGenerate`:
`if (!topic.trim()) { setError(...); return; }` then
`setLoading(true); setError(''); setContent(''); setWordCount(0);
setToolUsed(null);` and the `fetch` is issued with
`{ tool, topic, length: lengthKey, tone }`. -/
def handleGenerateStart (s : StudioState) : SubmitStep :=
  if (jsTrim s.topic).isEmpty then
    .rejected { s with error := emptyTopicError }
  else
    .issued
      { tool := s.tool, topic := s.topic, length := s.lengthKey, tone := s.tone }
      { s with loading := true, error := "", content := "", wordCount := 0,
               toolUsed := none }

/-- Whether a submit step issued a network request. -/
def SubmitStep.isIssued : SubmitStep → Bool
  | .rejected _ => false
  | .issued _ _ => true

/-- The state after the synchronous part of `handleGenerate`. -/
def SubmitStep.state : SubmitStep → StudioState
  | .rejected s => s
  | .issued _ s => s

/-- The request issued by the synchronous part of `handleGenerate`, if any. -/
def SubmitStep.request : SubmitStep → Option GenerationRequest
  | .rejected _ => none
  | .issued r _ => r

/-- A wire response as `handleGenerate` consumes it: the HTTP status, the raw
text body (read on the error path), and the parsed JSON fields `content`,
`word_count` and `tool_used` (each possibly absent) read on the success path. -/
structure WireResponse where
  status : Nat
  body : String
  content : Option String
  word_count : Option Nat
  tool_used : Option WritingTool
deriving DecidableEq, Repr

/-- `res.ok`: the HTTP status lies in the success range 200–299. -/
def WireResponse.ok (r : WireResponse) : Bool :=
  200 ≤ r.status && r.status < 300

/-- The error message thrown on a non-ok response:
`` `HTTP ${res.status}: ${text}` ``. -/
def httpErrorMessage (status : Nat) (body : String) : String :=
  "HTTP " ++ toString status ++ ": " ++ body

/-- The asynchronous remainder of `handleGenerate`, applied when the fetch for
request `req` resolves with response `r` while the component state is `s`:
on `!res.ok` the thrown `HTTP ...` message is caught and stored via
`setError`; on success `setContent(data.content || '')`,
`setWordCount(data.word_count || 0)`, `setToolUsed(data.tool_used || tool)`
(where `tool` is the closure capture, i.e. the tool of the submitted request);
`finally { setLoading(false) }`. -/
def handleResolve (s : StudioState) (req : GenerationRequest) (r : WireResponse) :
    StudioState :=
  if r.ok then
    { s with content := r.content.getD ""
             wordCount := r.word_count.getD 0
             toolUsed := some (r.tool_used.getD req.tool)
             loading := false }
  else
    { s with error := httpErrorMessage r.status r.body, loading := false }

/-- The tool-selector click handler:
`setTool(key); const first = TOOL_CONFIG[key].lengths[0]; setLengthKey(first.value);`. -/
def selectTool (s : StudioState) (key : WritingTool) : StudioState :=
  { s with tool := key
           lengthKey := ((TOOL_CONFIG key).lengths.head (lengths_nonempty key)).value }

/-- The lifecycle abstraction of the spec's state machine, read off the React
state: `loading` marks `InFlight`, a non-empty `error` marks `Failure`, a
recorded `toolUsed` marks `Success` (it is set exactly on successful
resolution), anything else is `Idle`. -/
inductive Lifecycle where
  | idle
  | inflight
  | success (content : String) (wordCount : Nat) (toolUsed : WritingTool)
  | failure (message : String)
deriving DecidableEq, Repr

/-- Interpret a component state as a lifecycle state. -/
def StudioState.lifecycle (s : StudioState) : Lifecycle :=
  if s.loading then .inflight
  else if s.error ≠ "" then .failure s.error
  else
    match s.toolUsed with
    | some t => .success s.content s.wordCount t
    | none => .idle

/-- A plain-text export artifact: the byte content and the download filename. -/
structure TxtFile where
  content : String
  filename : List Char
deriving DecidableEq, Repr

/-- JavaScript `str.replace(a, b)` with single-character string arguments:
only the first occurrence is replaced. -/
def jsReplaceFirst (a b : Char) : List Char → List Char
  | [] => []
  | c :: cs => if c = a then b :: cs else c :: jsReplaceFirst a b cs

/-- The wire identifier of a tool (the string value of the union member). -/
def toolName : WritingTool → List Char
  | .essay => "essay".toList
  | .report => "report".toList
  | .article => "article".toList
  | .summary => "summary".toList
  | .explanation => "explanation".toList
  | .social => "social".toList

/-- The `handleDownloadTxt` handler: bail out if there is no content, else
build a `Blob` of the content and a download name
`` `${safeTool}-${topic.slice(0, 24) || 'ai-writing'}.txt` `` where
`safeTool = (toolUsed || tool).replace('_', '-')`. -/
def handleDownloadTxt (s : StudioState) : Option TxtFile :=
  if s.content = "" then none
  else
    some { content := s.content
           filename :=
             jsReplaceFirst '_' '-' (toolName (s.toolUsed.getD s.tool)) ++
             ('-' :: (if s.topic.take 24 = [] then "ai-writing".toList
                      else s.topic.take 24)) ++
             ".txt".toList }

/-- A whitespace-only topic, used to exercise the empty-topic guard. -/
def wsTopicState : StudioState := { initialState with topic := [' ', '\t', ' '] }

/-- The rejected-state reached from `wsTopicState`. -/
def wsTopicRejected : StudioState := { wsTopicState with error := emptyTopicError }

/-- A topic of exactly 1000 characters (the counter limit shown in the UI). -/
def maxTopicState : StudioState :=
  { initialState with topic := List.replicate 1000 'a' }

/-- A topic of 1001 characters, one over the displayed 1000 limit. -/
def overTopicState : StudioState :=
  { initialState with topic := List.replicate 1001 'a' }

/-- A state whose selected length key does not belong to the selected tool:
`tweet` is a Social Media length, not an Essay Writer one. -/
def staleLengthState : StudioState :=
  { initialState with lengthKey := .tweet,
                      topic := ['C', 'l', 'i', 'm', 'a', 't', 'e'] }

/-- A second mismatched state: a `bullet` length with the Report tool. -/
def staleLengthState2 : StudioState :=
  { initialState with tool := .report, lengthKey := .bullet, topic := ['x'] }

/-- A successful result whose topic contains a path separator. -/
def slashTopicState : StudioState :=
  { initialState with content := "Hello world", topic := ['a', '/', 'b'],
                      toolUsed := some .essay }

/-- A successful result with an ordinary topic, for the export witness. -/
def txtWitnessState : StudioState :=
  { initialState with content := "Generated essay text.",
                      topic := ['C', 'l', 'i', 'm', 'a', 't', 'e'],
                      toolUsed := some .essay }

/-- A placeholder request for reading `Option GenerationRequest` values that
are known to be present. -/
def dummyRequest : GenerationRequest :=
  { tool := .essay, topic := [], length := .medium, tone := .academic }

/-- Starting state of the double-submission scenario. -/
def c1_s0 : StudioState :=
  { initialState with topic := ['C', 'l', 'i', 'm', 'a', 't', 'e'] }

/-- Response eventually produced for the first submission. -/
def c1_respA : WireResponse :=
  { status := 200, body := "", content := some "FIRST", word_count := some 100,
    tool_used := none }

/-- Response eventually produced for the second submission. -/
def c1_respB : WireResponse :=
  { status := 200, body := "", content := some "SECOND", word_count := some 200,
    tool_used := none }

/-- Double-submission scenario, after the second call resolved: submission A is
issued from `c1_s0`, submission B is issued before A resolves, then B's
response arrives. -/
def c1_afterB : StudioState :=
  let stepA := handleGenerateStart c1_s0
  let stepB := handleGenerateStart stepA.state
  handleResolve stepB.state (stepB.request.getD dummyRequest) c1_respB

/-- Double-submission scenario, final state: after `c1_afterB`, the
first (stale) call's response arrives last and is applied by the same
resolution code, with no sequence-number comparison anywhere. -/
def c1_final : StudioState :=
  let stepA := handleGenerateStart c1_s0
  handleResolve c1_afterB (stepA.request.getD dummyRequest) c1_respA

/-- A concrete 500 response used as a witness input. -/
def resp500 : WireResponse :=
  { status := 500, body := "Internal Server Error", content := none,
    word_count := none, tool_used := none }

/-- A concrete 200 response with no `content` field. -/
def respNoContent : WireResponse :=
  { status := 200, body := "", content := none, word_count := some 7,
    tool_used := none }

/-- The in-flight state of the C6/C8/C10 witness scenarios: the state reached
by submitting `c1_s0`. -/
def inflightWitnessState : StudioState := (handleGenerateStart c1_s0).state

/-- The request of the C6/C8/C10 witness scenarios. -/
def witnessRequest : GenerationRequest :=
  (handleGenerateStart c1_s0).request.getD dummyRequest

/-- Trimming a string made only of whitespace yields the empty string. -/
theorem jsTrim_eq_nil_of_all_ws {l : List Char}
    (h : ∀ c ∈ l, isJsWhitespace c = true) : jsTrim l = [] := by
  unfold jsTrim
  have h1 : l.dropWhile isJsWhitespace = [] := by
    rw [List.dropWhile_eq_nil_iff]
    exact h
  simp [h1]

/-- The thrown HTTP error message is never the empty string. -/
theorem httpErrorMessage_ne_empty (status : Nat) (body : String) :
    httpErrorMessage status body ≠ "" := by
  intro h
  have hlen := congrArg String.length h
  simp [httpErrorMessage, String.length_append] at hlen
  exact absurd hlen.1.1.1 (by decide)

/-- C4: switching tools resets the selected length to the first LengthOption
of the newly selected tool, every ToolDefinition has at least one
LengthOption, and hence after every tool switch the selected length identifier
is a member of the new tool's LengthOption set. -/
theorem tool_switch_length_member (s : StudioState) (k : WritingTool) :
    (selectTool s k).lengthKey ∈
      ((TOOL_CONFIG (selectTool s k).tool).lengths.map LengthOption.value) ∧
    (selectTool s k).lengthKey =
      ((TOOL_CONFIG k).lengths.head (lengths_nonempty k)).value ∧
    ∀ t : WritingTool, (TOOL_CONFIG t).lengths ≠ [] := by
  refine ⟨?_, ?_, lengths_nonempty⟩
  · cases k <;> simp [selectTool, TOOL_CONFIG]
  · simp [selectTool]

/-- C5: a topic consisting only of whitespace is rejected with the
empty-topic error message and no network request is issued. -/
theorem whitespace_topic_rejected (s : StudioState)
    (h : ∀ c ∈ s.topic, isJsWhitespace c = true) :
    handleGenerateStart s = .rejected { s with error := emptyTopicError } ∧
    (handleGenerateStart s).isIssued = false ∧
    (handleGenerateStart s).request = none := by
  have ht : jsTrim s.topic = [] := jsTrim_eq_nil_of_all_ws h
  simp [handleGenerateStart, ht, SubmitStep.isIssued, SubmitStep.request]

/-- Closed witness for `whitespace_topic_rejected` at the topic `" \t "`. -/
theorem whitespace_topic_rejected_witness :
    (∀ c ∈ wsTopicState.topic, isJsWhitespace c = true) ∧
    (handleGenerateStart wsTopicState = .rejected wsTopicRejected ∧
     (handleGenerateStart wsTopicState).isIssued = false ∧
     (handleGenerateStart wsTopicState).request = none) :=
  ⟨by decide, whitespace_topic_rejected wsTopicState (by decide)⟩

/-- C6: a wire response whose status lies outside the 200–299 success range
resolves to the Failure lifecycle state carrying the thrown
`HTTP status: body` message, which holds both the status code and the body. -/
theorem http_error_failure (s : StudioState) (req : GenerationRequest)
    (r : WireResponse) (h : ¬(200 ≤ r.status ∧ r.status < 300)) :
    (handleResolve s req r).error = httpErrorMessage r.status r.body ∧
    (handleResolve s req r).lifecycle =
      .failure (httpErrorMessage r.status r.body) := by
  have hok : r.ok = false := by
    simp [WireResponse.ok]
    omega
  have hne := httpErrorMessage_ne_empty r.status r.body
  simp [handleResolve, hok, StudioState.lifecycle, hne]

/-- Closed witness for `http_error_failure` at a mocked 500 response. -/
theorem http_error_failure_witness :
    (¬(200 ≤ resp500.status ∧ resp500.status < 300)) ∧
    ((handleResolve inflightWitnessState witnessRequest resp500).error =
       httpErrorMessage resp500.status resp500.body ∧
     (handleResolve inflightWitnessState witnessRequest resp500).lifecycle =
       .failure (httpErrorMessage resp500.status resp500.body)) :=
  ⟨by decide, http_error_failure _ _ _ (by decide)⟩

/-- C7: a submission that passes the topic guard issues a request, and the
in-flight state it leaves behind has every previous result payload cleared:
no content, zero word count, no recorded tool, no error message. -/
theorem inflight_clears_payload (s : StudioState) (h : jsTrim s.topic ≠ []) :
    (handleGenerateStart s).isIssued = true ∧
    (handleGenerateStart s).state.content = "" ∧
    (handleGenerateStart s).state.wordCount = 0 ∧
    (handleGenerateStart s).state.toolUsed = none ∧
    (handleGenerateStart s).state.error = "" ∧
    (handleGenerateStart s).state.lifecycle = .inflight := by
  cases hjs : jsTrim s.topic with
  | nil => exact absurd hjs h
  | cons a l =>
    simp [handleGenerateStart, hjs, SubmitStep.isIssued, SubmitStep.state,
      StudioState.lifecycle]

/-- Closed witness for `inflight_clears_payload`: submitting from a state that
still holds a previous result clears all of it. -/
theorem inflight_clears_payload_witness :
    jsTrim txtWitnessState.topic ≠ [] ∧
    ((handleGenerateStart txtWitnessState).isIssued = true ∧
     (handleGenerateStart txtWitnessState).state.content = "" ∧
     (handleGenerateStart txtWitnessState).state.wordCount = 0 ∧
     (handleGenerateStart txtWitnessState).state.toolUsed = none ∧
     (handleGenerateStart txtWitnessState).state.error = "" ∧
     (handleGenerateStart txtWitnessState).state.lifecycle = .inflight) :=
  ⟨by decide, inflight_clears_payload txtWitnessState (by decide)⟩

/-- C8: a success (2xx) response whose `content` field is absent still
resolves to the Success lifecycle state, with the empty string as body,
never to Failure. -/
theorem success_missing_text_empty (s : StudioState) (req : GenerationRequest)
    (r : WireResponse) (hok : r.ok = true) (habs : r.content = none)
    (herr : s.error = "") :
    (handleResolve s req r).content = "" ∧
    (handleResolve s req r).lifecycle =
      .success "" (r.word_count.getD 0) (r.tool_used.getD req.tool) := by
  simp [handleResolve, hok, habs, StudioState.lifecycle, herr]

/-- Closed witness for `success_missing_text_empty` at a 200 response with no
`content` field, resolved from an in-flight state. -/
theorem success_missing_text_empty_witness :
    (respNoContent.ok = true ∧ respNoContent.content = none ∧
     inflightWitnessState.error = "") ∧
    ((handleResolve inflightWitnessState witnessRequest respNoContent).content
        = "" ∧
     (handleResolve inflightWitnessState witnessRequest respNoContent).lifecycle
        = .success "" (respNoContent.word_count.getD 0)
            (respNoContent.tool_used.getD witnessRequest.tool)) :=
  ⟨⟨by decide, by decide, by decide⟩,
   success_missing_text_empty _ _ _ (by decide) (by decide) (by decide)⟩

/-- C10: after any successful resolution the recorded tool is set, and when
the response omits `tool_used` it defaults to the tool of the submitted
request. -/
theorem tool_used_defaulting (s : StudioState) (req : GenerationRequest)
    (r : WireResponse) (hok : r.ok = true) :
    ((handleResolve s req r).toolUsed).isSome = true ∧
    (r.tool_used = none →
      (handleResolve s req r).toolUsed = some req.tool) := by
  refine ⟨by simp [handleResolve, hok], ?_⟩
  intro htu
  simp [handleResolve, hok, htu]

/-- Closed witness for `tool_used_defaulting` at a 200 response that omits
`tool_used`. -/
theorem tool_used_defaulting_witness :
    respNoContent.ok = true ∧
    (((handleResolve initialState witnessRequest respNoContent).toolUsed).isSome
        = true ∧
     (respNoContent.tool_used = none →
       (handleResolve initialState witnessRequest respNoContent).toolUsed =
         some witnessRequest.tool)) :=
  ⟨by decide, tool_used_defaulting _ _ _ (by decide)⟩

/-- C1: the code has no sequence numbers — in the double-submission scenario
where the second call resolves first, the second result is shown briefly and
then the stale first response is applied over it, so the final displayed
result is the first submission's, contradicting discard-stale-responses. -/
theorem stale_response_overwrites :
    c1_afterB.content = "SECOND" ∧
    c1_final.content = "FIRST" ∧
    c1_final.lifecycle = .success "FIRST" 100 .essay ∧
    c1_respA.content ≠ c1_respB.content := by
  decide

/-- C2 counterexample: a topic of 1001 characters, one over the displayed
1000 limit, is not rejected with any TopicTooLong error — the submission is
issued and carries the full topic. -/
theorem topic_1001_still_issued :
    overTopicState.topic.length = 1001 ∧
    (handleGenerateStart overTopicState).isIssued = true ∧
    (handleGenerateStart overTopicState).request =
      some { tool := .essay, topic := List.replicate 1001 'a',
             length := .medium, tone := .academic } := by
  refine ⟨?_, ?_, ?_⟩ <;> decide

/-- C2 (amended): the submit handler performs no maximum-length validation at
all — every topic that is non-empty after trimming is submitted unchanged,
whatever its length (in particular both 1000- and 1001-character topics). -/
theorem no_topic_length_limit (s : StudioState) (h : jsTrim s.topic ≠ []) :
    (handleGenerateStart s).isIssued = true ∧
    (handleGenerateStart s).request =
      some { tool := s.tool, topic := s.topic, length := s.lengthKey,
             tone := s.tone } := by
  cases hjs : jsTrim s.topic with
  | nil => exact absurd hjs h
  | cons a l =>
    simp [handleGenerateStart, hjs, SubmitStep.isIssued, SubmitStep.request]

/-- Closed witness for `no_topic_length_limit` at a topic of exactly 1000
characters: the build succeeds. -/
theorem no_topic_length_limit_witness :
    jsTrim maxTopicState.topic ≠ [] ∧
    ((handleGenerateStart maxTopicState).isIssued = true ∧
     (handleGenerateStart maxTopicState).request =
       some { tool := maxTopicState.tool, topic := maxTopicState.topic,
              length := maxTopicState.lengthKey, tone := maxTopicState.tone }) :=
  ⟨by decide, no_topic_length_limit maxTopicState (by decide)⟩

/-- C3 counterexample: with the Essay tool selected together with the stale
`tweet` length (a Social Media option), the submission is not rejected with
any LengthMismatch error — the request is issued carrying the mismatched
length. -/
theorem stale_length_still_issued :
    staleLengthState.lengthKey ∉
      ((TOOL_CONFIG staleLengthState.tool).lengths.map LengthOption.value) ∧
    (handleGenerateStart staleLengthState).isIssued = true ∧
    (handleGenerateStart staleLengthState).request =
      some { tool := .essay, topic := ['C', 'l', 'i', 'm', 'a', 't', 'e'],
             length := .tweet, tone := .academic } := by
  decide

/-- C3 (amended): no length-membership check happens at build time — even
when the selected length key is outside the selected tool's LengthOption set,
the submission is issued and carries that length key unchanged. -/
theorem no_length_membership_check (s : StudioState)
    (hmem : s.lengthKey ∉
      ((TOOL_CONFIG s.tool).lengths.map LengthOption.value))
    (h : jsTrim s.topic ≠ []) :
    (handleGenerateStart s).isIssued = true ∧
    (handleGenerateStart s).request =
      some { tool := s.tool, topic := s.topic, length := s.lengthKey,
             tone := s.tone } := by
  cases hjs : jsTrim s.topic with
  | nil => exact absurd hjs h
  | cons a l =>
    simp [handleGenerateStart, hjs, SubmitStep.isIssued, SubmitStep.request]

/-- Closed witness for `no_length_membership_check` at the Report tool paired
with the stale `bullet` length. -/
theorem no_length_membership_check_witness :
    (staleLengthState2.lengthKey ∉
      ((TOOL_CONFIG staleLengthState2.tool).lengths.map LengthOption.value)) ∧
    jsTrim staleLengthState2.topic ≠ [] ∧
    ((handleGenerateStart staleLengthState2).isIssued = true ∧
     (handleGenerateStart staleLengthState2).request =
       some { tool := staleLengthState2.tool, topic := staleLengthState2.topic,
              length := staleLengthState2.lengthKey,
              tone := staleLengthState2.tone }) :=
  ⟨by decide, by decide, no_length_membership_check staleLengthState2
    (by decide) (by decide)⟩

/-- C9 counterexample: the export filename is built from the raw topic — for
the topic `a/b` the download name is `essay-a/b.txt`, which still contains
the path separator `/`; no sanitization of path-unsafe characters happens. -/
theorem txt_export_not_sanitized :
    (handleDownloadTxt slashTopicState).map TxtFile.filename =
      some "essay-a/b.txt".toList ∧
    '/' ∈ "essay-a/b.txt".toList ∧
    (handleDownloadTxt slashTopicState).map TxtFile.content =
      some slashTopicState.content := by
  decide

/-- C9 (amended): the plain-text export carries the generated text verbatim
and a filename of the shape `tool-topicPrefix.txt`, where the tool name has
its first underscore replaced by a hyphen and the topic part is the raw topic
truncated to at most 24 characters (`ai-writing` when the topic is empty) —
truncated and suffixed, but not sanitized. -/
theorem txt_export_shape (s : StudioState) (h : s.content ≠ "") :
    handleDownloadTxt s =
      some { content := s.content
             filename :=
               jsReplaceFirst '_' '-' (toolName (s.toolUsed.getD s.tool)) ++
               ('-' :: (if s.topic = [] then "ai-writing".toList
                        else s.topic.take 24)) ++
               ".txt".toList } ∧
    (if s.topic = [] then "ai-writing".toList
     else s.topic.take 24).length ≤ 24 := by
  refine ⟨?_, ?_⟩
  · simp [handleDownloadTxt, h, List.take_eq_nil_iff]
  · split
    · decide
    · rw [List.length_take]
      exact Nat.min_le_left _ _

/-- Closed witness for `txt_export_shape` at a concrete successful result. -/
theorem txt_export_shape_witness :
    txtWitnessState.content ≠ "" ∧
    (handleDownloadTxt txtWitnessState =
       some { content := txtWitnessState.content
              filename :=
                jsReplaceFirst '_' '-'
                  (toolName (txtWitnessState.toolUsed.getD txtWitnessState.tool)) ++
                ('-' :: (if txtWitnessState.topic = [] then "ai-writing".toList
                         else txtWitnessState.topic.take 24)) ++
                ".txt".toList } ∧
     (if txtWitnessState.topic = [] then "ai-writing".toList
      else txtWitnessState.topic.take 24).length ≤ 24) :=
  ⟨by decide, txt_export_shape txtWitnessState (by decide)⟩
